import Mathlib

/-!
Verification of the CQL value-deserialization module
(`scylla-cql/src/types/deserialize/value.rs`).

Shallow embedding conventions:
* wire bytes are modelled as `List Nat`, each element standing for one `u8`
  (reduced modulo 256 wherever the bit pattern matters);
* Rust machine integers are modelled as `Int` with explicit two's-complement
  reinterpretation of big-endian byte strings;
* `f32`/`f64` values are modelled by their big-endian bit pattern (a `Nat`),
  since the code only ever reinterprets bytes (`from_be_bytes`);
* fallible code returns `Except`.
-/

namespace ScyllaCql

/-- Modelled from the spec: the Column Type Catalog (`ColumnType` lives in
`frame/response/result.rs`, which is outside the given source slice).
The spec lists: boolean, fixed-width integers of 1/2/4/8 bytes, two
floating-point widths, blob, two string variants, varint, decimal, four
temporal kinds, duration, counter, and the parametrized composites list,
set, map, tuple and UDT. -/
inductive ColumnType where
  | Ascii
  | Boolean
  | Blob
  | Counter
  | Date
  | Decimal
  | Double
  | Duration
  | Float
  | Int
  | BigInt
  | Text
  | Timestamp
  | SmallInt
  | TinyInt
  | Time
  | Varint
  | List (elem : ColumnType)
  | Set (elem : ColumnType)
  | Map (key value : ColumnType)
  | Tuple (elems : List ColumnType)
  | UserDefinedType (typeName : String)

/-- Mirrors `BuiltinTypeCheckErrorKind` (`value.rs`): currently the single
variant `MismatchedType { expected: &'static [ColumnType] }`. -/
inductive BuiltinTypeCheckErrorKind where
  | MismatchedType (expected : List ColumnType)

/-- Mirrors `BuiltinTypeCheckError` (`value.rs`): the Rust type name, the CQL
type checked against, and the failure kind. -/
structure BuiltinTypeCheckError where
  rust_name : String
  cql_type : ColumnType
  kind : BuiltinTypeCheckErrorKind

/-- Mirrors `BuiltinDeserializationErrorKind` (`value.rs`). The `ParseError`
payload of `GenericParseError` and the `Utf8Error` payload of `InvalidUtf8`
come from modules outside the source slice and are not modelled. -/
inductive BuiltinDeserializationErrorKind where
  | GenericParseError
  | ExpectedNonNull
  | ByteLengthMismatch (expected got : Nat)
  | ExpectedAscii
  | InvalidUtf8
  | ValueOverflow

/-- Mirrors `BuiltinDeserializationError` (`value.rs`). -/
structure BuiltinDeserializationError where
  rust_name : String
  cql_type : ColumnType
  kind : BuiltinDeserializationErrorKind

abbrev TypeCheckResult := Except BuiltinTypeCheckError Unit

abbrev DeserResult (α : Type) := Except BuiltinDeserializationError α

/-- Big-endian unsigned value of a byte string (each byte taken mod 256,
as a `u8`). -/
def beNat (bs : List Nat) : Nat :=
  bs.foldl (fun acc b => acc * 256 + b % 256) 0

/-- `<$t>::from_be_bytes` for a signed integer of `numBytes` bytes:
two's-complement reinterpretation of the big-endian value. -/
def fromBeBytesSigned (numBytes : Nat) (bs : List Nat) : Int :=
  let u := beNat bs
  if u < 2 ^ (8 * numBytes - 1) then (u : Int) else (u : Int) - 2 ^ (8 * numBytes)

/-- Modelled from the spec: big-endian two's-complement reading of an
arbitrary-length byte string (`from_signed_bytes_be_slice`, defined in
`frame/value.rs` outside the source slice): "consume all provided bytes as
big-endian two's-complement". The empty string denotes zero. -/
def fromSignedBytesBE (bs : List Nat) : Int :=
  match bs with
  | [] => 0
  | b :: _ =>
    if b % 256 < 128 then (beNat bs : Int) else (beNat bs : Int) - 2 ^ (8 * bs.length)

/-- Big-endian byte string of length `len` representing `n` (mod `2^(8*len)`);
used to build concrete wire inputs in theorems. -/
def natToBeBytes : Nat → Nat → List Nat
  | 0, _ => []
  | len + 1, n => natToBeBytes len (n / 256) ++ [n % 256]

/-- Mirrors `ensure_not_null_slice` (`value.rs`): `None` (CQL null) becomes an
`ExpectedNonNull` error, a present slice is returned as bytes. The `name`
argument stands for `std::any::type_name::<T>()`. -/
def ensure_not_null_slice (name : String) (typ : ColumnType) (v : Option (List Nat)) :
    DeserResult (List Nat) :=
  match v with
  | none => .error ⟨name, typ, .ExpectedNonNull⟩
  | some s => .ok s

/-- Mirrors `ensure_exact_length` (`value.rs`): the slice is returned when its
length is exactly `size`, otherwise a `ByteLengthMismatch` error carrying the
expected and actual lengths. -/
def ensure_exact_length (name : String) (size : Nat) (typ : ColumnType) (v : List Nat) :
    DeserResult (List Nat) :=
  if v.length = size then .ok v
  else .error ⟨name, typ, .ByteLengthMismatch size v.length⟩

/-! ### Fixed-width numeric types (`impl_fixed_numeric_type!`) -/

/-- `type_check` for `i8` (`impl_fixed_numeric_type!(i8, TinyInt)` expanded
through `exact_type_check!`). -/
def typeCheck_i8 (typ : ColumnType) : TypeCheckResult :=
  match typ with
  | .TinyInt => .ok ()
  | _ => .error ⟨"i8", typ, .MismatchedType [.TinyInt]⟩

/-- `deserialize` for `i8`: non-null check, exact-length check against
`size_of::<i8>() = 1`, then `i8::from_be_bytes`. -/
def deserialize_i8 (typ : ColumnType) (v : Option (List Nat)) : DeserResult Int := do
  let val ← ensure_not_null_slice "i8" typ v
  let arr ← ensure_exact_length "i8" 1 typ val
  pure (fromBeBytesSigned 1 arr)

/-- `type_check` for `i16` (`impl_fixed_numeric_type!(i16, SmallInt)`). -/
def typeCheck_i16 (typ : ColumnType) : TypeCheckResult :=
  match typ with
  | .SmallInt => .ok ()
  | _ => .error ⟨"i16", typ, .MismatchedType [.SmallInt]⟩

/-- `deserialize` for `i16`: 2-byte big-endian. -/
def deserialize_i16 (typ : ColumnType) (v : Option (List Nat)) : DeserResult Int := do
  let val ← ensure_not_null_slice "i16" typ v
  let arr ← ensure_exact_length "i16" 2 typ val
  pure (fromBeBytesSigned 2 arr)

/-- `type_check` for `i32` (`impl_fixed_numeric_type!(i32, Int)`). -/
def typeCheck_i32 (typ : ColumnType) : TypeCheckResult :=
  match typ with
  | .Int => .ok ()
  | _ => .error ⟨"i32", typ, .MismatchedType [.Int]⟩

/-- `deserialize` for `i32`: 4-byte big-endian. -/
def deserialize_i32 (typ : ColumnType) (v : Option (List Nat)) : DeserResult Int := do
  let val ← ensure_not_null_slice "i32" typ v
  let arr ← ensure_exact_length "i32" 4 typ val
  pure (fromBeBytesSigned 4 arr)

/-- `type_check` for `i64` (`impl_fixed_numeric_type!(i64, [BigInt | Counter])`):
the only target that accepts two column types. -/
def typeCheck_i64 (typ : ColumnType) : TypeCheckResult :=
  match typ with
  | .BigInt | .Counter => .ok ()
  | _ => .error ⟨"i64", typ, .MismatchedType [.BigInt, .Counter]⟩

/-- `deserialize` for `i64`: 8-byte big-endian. -/
def deserialize_i64 (typ : ColumnType) (v : Option (List Nat)) : DeserResult Int := do
  let val ← ensure_not_null_slice "i64" typ v
  let arr ← ensure_exact_length "i64" 8 typ val
  pure (fromBeBytesSigned 8 arr)

/-- `type_check` for `f32` (`impl_fixed_numeric_type!(f32, Float)`). -/
def typeCheck_f32 (typ : ColumnType) : TypeCheckResult :=
  match typ with
  | .Float => .ok ()
  | _ => .error ⟨"f32", typ, .MismatchedType [.Float]⟩

/-- `deserialize` for `f32`: the decoded float is modelled by its 32-bit
big-endian bit pattern, which is exactly what `f32::from_be_bytes` fixes. -/
def deserialize_f32 (typ : ColumnType) (v : Option (List Nat)) : DeserResult Nat := do
  let val ← ensure_not_null_slice "f32" typ v
  let arr ← ensure_exact_length "f32" 4 typ val
  pure (beNat arr)

/-- `type_check` for `f64` (`impl_fixed_numeric_type!(f64, Double)`). -/
def typeCheck_f64 (typ : ColumnType) : TypeCheckResult :=
  match typ with
  | .Double => .ok ()
  | _ => .error ⟨"f64", typ, .MismatchedType [.Double]⟩

/-- `deserialize` for `f64`: the decoded double modelled by its 64-bit
big-endian bit pattern. -/
def deserialize_f64 (typ : ColumnType) (v : Option (List Nat)) : DeserResult Nat := do
  let val ← ensure_not_null_slice "f64" typ v
  let arr ← ensure_exact_length "f64" 8 typ val
  pure (beNat arr)

/-! ### bool -/

/-- `type_check` for `bool` (`impl_emptiable_strict_type!(bool, Boolean, ..)`). -/
def typeCheck_bool (typ : ColumnType) : TypeCheckResult :=
  match typ with
  | .Boolean => .ok ()
  | _ => .error ⟨"bool", typ, .MismatchedType [.Boolean]⟩

/-- `deserialize` for `bool`: exactly one byte; the result is
`arr[0] != 0x00`. -/
def deserialize_bool (typ : ColumnType) (v : Option (List Nat)) : DeserResult Bool := do
  let val ← ensure_not_null_slice "bool" typ v
  let arr ← ensure_exact_length "bool" 1 typ val
  pure (arr.headD 0 % 256 != 0)

/-! ### Counter -/

/-- The `Counter` newtype over `i64` (`frame/value.rs`). -/
structure Counter where
  val : Int
deriving Repr

/-- `type_check` for `Counter` (`impl_strict_type!(Counter, Counter, ..)`). -/
def typeCheck_Counter (typ : ColumnType) : TypeCheckResult :=
  match typ with
  | .Counter => .ok ()
  | _ => .error ⟨"Counter", typ, .MismatchedType [.Counter]⟩

/-- `deserialize` for `Counter`: 8 bytes, `i64::from_be_bytes`, wrapped. -/
def deserialize_Counter (typ : ColumnType) (v : Option (List Nat)) : DeserResult Counter := do
  let val ← ensure_not_null_slice "Counter" typ v
  let arr ← ensure_exact_length "Counter" 8 typ val
  pure ⟨fromBeBytesSigned 8 arr⟩

/-! ### Varint and Decimal -/

/-- Modelled from the spec: `CqlVarint` (`frame/value.rs`, outside the source
slice) holds the big-endian two's-complement value of all provided bytes. -/
structure CqlVarint where
  val : Int

/-- `type_check` for `CqlVarint` (`impl_emptiable_strict_type!(CqlVarint, Varint, ..)`). -/
def typeCheck_CqlVarint (typ : ColumnType) : TypeCheckResult :=
  match typ with
  | .Varint => .ok ()
  | _ => .error ⟨"CqlVarint", typ, .MismatchedType [.Varint]⟩

/-- `deserialize` for `CqlVarint`: `CqlVarint::from_signed_bytes_be_slice(val)`
over the whole present slice, with no length restriction. -/
def deserialize_CqlVarint (typ : ColumnType) (v : Option (List Nat)) : DeserResult CqlVarint := do
  let val ← ensure_not_null_slice "CqlVarint" typ v
  pure ⟨fromSignedBytesBE val⟩

/-- Number of leading one bits in the 8-bit value `b`, written out by the
byte ranges the bit patterns delimit. -/
def leadingOnes8 (b : Nat) : Nat :=
  let x := b % 256
  if x < 128 then 0
  else if x < 192 then 1
  else if x < 224 then 2
  else if x < 240 then 3
  else if x < 248 then 4
  else if x < 252 then 5
  else if x < 254 then 6
  else if x < 255 then 7
  else 8

/-- Zigzag decoding of an unsigned value into a signed one. -/
def zigzagDecode (n : Nat) : Int :=
  if n % 2 = 0 then (n / 2 : Nat) else -((n / 2 : Nat) : Int) - 1

/-- Modelled from the spec: the protocol's variable-length signed integer
decoding (`types::vint_decode` in `frame/types.rs`, outside the source slice):
the count of leading one bits of the first byte gives the number of extra
bytes, the remaining bits and the extra bytes form an unsigned big-endian
value, which is zigzag-decoded. Returns the decoded value and the rest of the
input, or `none` when the input is exhausted early. -/
def vint_decode (bs : List Nat) : Option (Int × List Nat) :=
  match bs with
  | [] => none
  | b :: rest =>
    let b := b % 256
    let extra := leadingOnes8 b
    if rest.length < extra then none
    else
      let firstBits := b % 2 ^ (8 - extra)
      let u := (rest.take extra).foldl (fun acc x => acc * 256 + x % 256) firstBits
      some (zigzagDecode u, rest.drop extra)

/-- Modelled from the spec: `types::read_int` (`frame/types.rs`, outside the
source slice), which the decimal decoder uses to consume its scale. The spec
describes it as consuming "a leading variable-length signed integer for scale
before the magnitude bytes". -/
def read_int (bs : List Nat) : Option (Int × List Nat) :=
  vint_decode bs

/-- `CqlDecimal` (`frame/value.rs`, outside the source slice): a signed
big-endian magnitude together with a scale, as built by
`from_signed_be_bytes_slice_and_exponent(bytes, scale)`. -/
structure CqlDecimal where
  int_val : Int
  scale : Int

/-- `type_check` for `CqlDecimal` (`impl_emptiable_strict_type!(CqlDecimal, Decimal, ..)`). -/
def typeCheck_CqlDecimal (typ : ColumnType) : TypeCheckResult :=
  match typ with
  | .Decimal => .ok ()
  | _ => .error ⟨"CqlDecimal", typ, .MismatchedType [.Decimal]⟩

/-- `deserialize` for `CqlDecimal`: read the scale from the front of the slice
(`types::read_int(&mut val)`, mapping failure to `GenericParseError`), then
take all remaining bytes as the signed big-endian magnitude. -/
def deserialize_CqlDecimal (typ : ColumnType) (v : Option (List Nat)) :
    DeserResult CqlDecimal := do
  let val ← ensure_not_null_slice "CqlDecimal" typ v
  match read_int val with
  | none => throw ⟨"CqlDecimal", typ, .GenericParseError⟩
  | some (scale, rest) => pure ⟨fromSignedBytesBE rest, scale⟩

/-! ### Blob targets -/

/-- `type_check` for `&[u8]` (`impl_strict_type!(&'a [u8], Blob, ..)`). -/
def typeCheck_bytesSlice (typ : ColumnType) : TypeCheckResult :=
  match typ with
  | .Blob => .ok ()
  | _ => .error ⟨"&[u8]", typ, .MismatchedType [.Blob]⟩

/-- `deserialize` for `&[u8]`: the present slice itself. -/
def deserialize_bytesSlice (typ : ColumnType) (v : Option (List Nat)) :
    DeserResult (List Nat) := do
  let val ← ensure_not_null_slice "&[u8]" typ v
  pure val

/-- `type_check` for `Vec<u8>`. -/
def typeCheck_bytesVec (typ : ColumnType) : TypeCheckResult :=
  match typ with
  | .Blob => .ok ()
  | _ => .error ⟨"Vec<u8>", typ, .MismatchedType [.Blob]⟩

/-- `deserialize` for `Vec<u8>`: `val.to_vec()` copies the same bytes. -/
def deserialize_bytesVec (typ : ColumnType) (v : Option (List Nat)) :
    DeserResult (List Nat) := do
  let val ← ensure_not_null_slice "Vec<u8>" typ v
  pure val

/-- `type_check` for `Bytes`. -/
def typeCheck_Bytes (typ : ColumnType) : TypeCheckResult :=
  match typ with
  | .Blob => .ok ()
  | _ => .error ⟨"Bytes", typ, .MismatchedType [.Blob]⟩

/-- `deserialize` for `Bytes`: `ensure_not_null_owned` yields the same bytes
as an owned buffer (`FrameSlice::to_bytes`). -/
def deserialize_Bytes (typ : ColumnType) (v : Option (List Nat)) :
    DeserResult (List Nat) := do
  let val ← ensure_not_null_slice "Bytes" typ v
  pure val

/-! ### String targets -/

/-- `matches!(typ, ColumnType::Ascii)`. -/
def isAsciiType (typ : ColumnType) : Bool :=
  match typ with
  | .Ascii => true
  | _ => false

/-- `<[u8]>::is_ascii`: every byte within the 7-bit range. -/
def isAsciiBytes (s : List Nat) : Bool :=
  s.all fun b => b % 256 < 128

/-- Mirrors `check_ascii` (`value.rs`): only an `Ascii`-tagged column type
triggers the check; any byte outside the 7-bit range is an `ExpectedAscii`
error. -/
def check_ascii (name : String) (typ : ColumnType) (s : List Nat) : DeserResult Unit :=
  if isAsciiType typ && !isAsciiBytes s then
    .error ⟨name, typ, .ExpectedAscii⟩
  else
    .ok ()

/-- Whether `c` is a UTF-8 continuation byte (`0x80..=0xBF`). -/
def isContByte (c : Nat) : Bool :=
  128 ≤ c % 256 && c % 256 ≤ 191

/-- UTF-8 well-formedness of a byte string, modelling
`std::str::from_utf8`'s validation (Rust standard library): one-byte
sequences below `0x80`; two-byte sequences `0xC2..=0xDF`; three-byte
sequences `0xE0..=0xEF` with the restricted second byte excluding overlong
forms and surrogates; four-byte sequences `0xF0..=0xF4` with the restricted
second byte bounding the code point to `0x10FFFF`. -/
def validUtf8 : List Nat → Bool
  | [] => true
  | b :: rest =>
    let b0 := b % 256
    if b0 < 128 then validUtf8 rest
    else if b0 < 194 then false
    else if b0 ≤ 223 then
      match rest with
      | c :: r => isContByte c && validUtf8 r
      | [] => false
    else if b0 ≤ 239 then
      match rest with
      | c :: d :: r =>
        let lo := if b0 = 224 then 160 else 128
        let hi := if b0 = 237 then 159 else 191
        (lo ≤ c % 256 && c % 256 ≤ hi) && isContByte d && validUtf8 r
      | _ => false
    else if b0 ≤ 244 then
      match rest with
      | c :: d :: e :: r =>
        let lo := if b0 = 240 then 144 else 128
        let hi := if b0 = 244 then 143 else 191
        (lo ≤ c % 256 && c % 256 ≤ hi) && isContByte d && isContByte e && validUtf8 r
      | _ => false
    else false

/-- `type_check` for `&str` (`impl_string_type!` expands to
`impl_strict_type!(&'a str, [Ascii | Text], ..)`). -/
def typeCheck_str (typ : ColumnType) : TypeCheckResult :=
  match typ with
  | .Ascii | .Text => .ok ()
  | _ => .error ⟨"&str", typ, .MismatchedType [.Ascii, .Text]⟩

/-- `deserialize` for `&str`: non-null check, `check_ascii`, then
`std::str::from_utf8` (an `InvalidUtf8` error on malformed input). The
resulting `&str` is modelled by its validated byte string. -/
def deserialize_str (typ : ColumnType) (v : Option (List Nat)) :
    DeserResult (List Nat) := do
  let val ← ensure_not_null_slice "&str" typ v
  let _ ← check_ascii "&str" typ val
  if validUtf8 val then pure val
  else throw ⟨"&str", typ, .InvalidUtf8⟩

/-- `type_check` for `String`. -/
def typeCheck_String (typ : ColumnType) : TypeCheckResult :=
  match typ with
  | .Ascii | .Text => .ok ()
  | _ => .error ⟨"String", typ, .MismatchedType [.Ascii, .Text]⟩

/-- `deserialize` for `String`: same checks as `&str`, then `s.to_string()`
copies the same bytes. -/
def deserialize_String (typ : ColumnType) (v : Option (List Nat)) :
    DeserResult (List Nat) := do
  let val ← ensure_not_null_slice "String" typ v
  let _ ← check_ascii "String" typ val
  if validUtf8 val then pure val
  else throw ⟨"String", typ, .InvalidUtf8⟩

/-! ### Temporal types -/

/-- `CqlDuration` (`frame/value.rs`): months and days are `i32`, nanoseconds
`i64`. -/
structure CqlDuration where
  months : Int
  days : Int
  nanoseconds : Int

/-- `i32::MIN` as an integer. -/
def i32Min : Int := -(2 ^ 31)

/-- `i32::MAX` as an integer. -/
def i32Max : Int := 2 ^ 31 - 1

/-- `type_check` for `CqlDuration` (`impl_strict_type!(CqlDuration, Duration, ..)`). -/
def typeCheck_CqlDuration (typ : ColumnType) : TypeCheckResult :=
  match typ with
  | .Duration => .ok ()
  | _ => .error ⟨"CqlDuration", typ, .MismatchedType [.Duration]⟩

/-- `deserialize` for `CqlDuration`: three consecutive `types::vint_decode`
reads (months, days, nanoseconds); a failed read is a `GenericParseError`,
months/days outside the `i32` range (`i32::try_from`) a `ValueOverflow`. -/
def deserialize_CqlDuration (typ : ColumnType) (v : Option (List Nat)) :
    DeserResult CqlDuration := do
  let val ← ensure_not_null_slice "CqlDuration" typ v
  match vint_decode val with
  | none => throw ⟨"CqlDuration", typ, .GenericParseError⟩
  | some (months_i64, val) =>
    if months_i64 < i32Min ∨ i32Max < months_i64 then
      throw ⟨"CqlDuration", typ, .ValueOverflow⟩
    else
      match vint_decode val with
      | none => throw ⟨"CqlDuration", typ, .GenericParseError⟩
      | some (days_i64, val) =>
        if days_i64 < i32Min ∨ i32Max < days_i64 then
          throw ⟨"CqlDuration", typ, .ValueOverflow⟩
        else
          match vint_decode val with
          | none => throw ⟨"CqlDuration", typ, .GenericParseError⟩
          | some (nanoseconds, _) => pure ⟨months_i64, days_i64, nanoseconds⟩

/-- `CqlDate` (`frame/value.rs`): a newtype over the raw `u32` day count. -/
structure CqlDate where
  days : Nat

/-- `type_check` for `CqlDate` (`impl_emptiable_strict_type!(CqlDate, Date, ..)`). -/
def typeCheck_CqlDate (typ : ColumnType) : TypeCheckResult :=
  match typ with
  | .Date => .ok ()
  | _ => .error ⟨"CqlDate", typ, .MismatchedType [.Date]⟩

/-- `deserialize` for `CqlDate`: 4 bytes, `u32::from_be_bytes`, stored raw. -/
def deserialize_CqlDate (typ : ColumnType) (v : Option (List Nat)) : DeserResult CqlDate := do
  let val ← ensure_not_null_slice "CqlDate" typ v
  let arr ← ensure_exact_length "CqlDate" 4 typ val
  pure ⟨beNat arr⟩

/-- Mirrors `get_days_since_epoch_from_date_column` (`value.rs`): 4 bytes as
unsigned big-endian, then `days as i64 - (1i64 << 31)`. -/
def get_days_since_epoch_from_date_column (name : String) (typ : ColumnType)
    (v : Option (List Nat)) : DeserResult Int := do
  let val ← ensure_not_null_slice name typ v
  let arr ← ensure_exact_length name 4 typ val
  pure ((beNat arr : Int) - 2 ^ 31)

/-- Modelled from the spec: the checked day-offset addition of an external
calendar-date type (`chrono::NaiveDate::checked_add_signed` /
`time::Date::checked_add`, outside the source slice). The calendar type has a
bounded representable range `[lo, hi]` of days since the epoch; an addition
leaving the range fails. The successful result is modelled by the
days-since-epoch count itself. -/
def calendar_checked_add_days (lo hi d : Int) : Option Int :=
  if lo ≤ d ∧ d ≤ hi then some d else none

/-- `deserialize` for a calendar date target (the `chrono::NaiveDate` /
`time::Date` impls in `value.rs`): days since epoch via
`get_days_since_epoch_from_date_column`, then the checked calendar addition;
out-of-range results fail with `ValueOverflow`. `lo`/`hi` are the calendar
type's representable range. -/
def deserialize_calendarDate (lo hi : Int) (name : String) (typ : ColumnType)
    (v : Option (List Nat)) : DeserResult Int := do
  let d ← get_days_since_epoch_from_date_column name typ v
  match calendar_checked_add_days lo hi d with
  | some x => pure x
  | none => throw ⟨name, typ, .ValueOverflow⟩

/-- `CqlTime` (`frame/value.rs`): a newtype over `i64` nanoseconds. -/
structure CqlTime where
  nanos : Int

/-- Mirrors `get_nanos_from_time_column` (`value.rs`): 8 bytes as signed
big-endian nanoseconds, restricted to `0..=86399999999999`. -/
def get_nanos_from_time_column (name : String) (typ : ColumnType)
    (v : Option (List Nat)) : DeserResult Int := do
  let val ← ensure_not_null_slice name typ v
  let arr ← ensure_exact_length name 8 typ val
  let nanoseconds := fromBeBytesSigned 8 arr
  if 0 ≤ nanoseconds ∧ nanoseconds ≤ 86399999999999 then
    pure nanoseconds
  else
    throw ⟨name, typ, .ValueOverflow⟩

/-- `type_check` for `CqlTime` (`impl_emptiable_strict_type!(CqlTime, Time, ..)`). -/
def typeCheck_CqlTime (typ : ColumnType) : TypeCheckResult :=
  match typ with
  | .Time => .ok ()
  | _ => .error ⟨"CqlTime", typ, .MismatchedType [.Time]⟩

/-- `deserialize` for `CqlTime`: the range-checked nanosecond count, wrapped. -/
def deserialize_CqlTime (typ : ColumnType) (v : Option (List Nat)) : DeserResult CqlTime := do
  let nanoseconds ← get_nanos_from_time_column "CqlTime" typ v
  pure ⟨nanoseconds⟩

/-- `CqlTimestamp` (`frame/value.rs`): a newtype over `i64` milliseconds. -/
structure CqlTimestamp where
  millis : Int

/-- Mirrors `get_millis_from_timestamp_column` (`value.rs`): 8 bytes as
signed big-endian milliseconds, unrestricted. -/
def get_millis_from_timestamp_column (name : String) (typ : ColumnType)
    (v : Option (List Nat)) : DeserResult Int := do
  let val ← ensure_not_null_slice name typ v
  let arr ← ensure_exact_length name 8 typ val
  pure (fromBeBytesSigned 8 arr)

/-- `type_check` for `CqlTimestamp`. -/
def typeCheck_CqlTimestamp (typ : ColumnType) : TypeCheckResult :=
  match typ with
  | .Timestamp => .ok ()
  | _ => .error ⟨"CqlTimestamp", typ, .MismatchedType [.Timestamp]⟩

/-- `deserialize` for `CqlTimestamp`. -/
def deserialize_CqlTimestamp (typ : ColumnType) (v : Option (List Nat)) :
    DeserResult CqlTimestamp := do
  let millis ← get_millis_from_timestamp_column "CqlTimestamp" typ v
  pure ⟨millis⟩

/-! ### Generic wrappers: `Option<T>` and `MaybeEmpty<T>` -/

/-- `type_check` of `Option<T>`: delegates to `T::type_check` unchanged. -/
def optionTypeCheck (inner : ColumnType → TypeCheckResult) (typ : ColumnType) :
    TypeCheckResult :=
  inner typ

/-- `deserialize` of `Option<T>`:
`v.map(|_| T::deserialize(typ, v)).transpose()` — null becomes `none`, a
present slice a recursive decode of `T` wrapped in `some`. -/
def optionDeserialize {α : Type} (inner : ColumnType → Option (List Nat) → DeserResult α)
    (typ : ColumnType) (v : Option (List Nat)) : DeserResult (Option α) :=
  match v with
  | none => .ok none
  | some s => (inner typ (some s)).map some

/-- The `MaybeEmpty` sum type (`value.rs`): `Empty` or `Value(T)`. -/
inductive MaybeEmpty (α : Type) where
  | Empty
  | Value (v : α)
deriving Repr

/-- `type_check` of `MaybeEmpty<T>`: delegates to `T::type_check`. -/
def maybeEmptyTypeCheck (inner : ColumnType → TypeCheckResult) (typ : ColumnType) :
    TypeCheckResult :=
  inner typ

/-- `deserialize` of `MaybeEmpty<T>`: non-null check, then an empty present
slice is `Empty` and a non-empty one a recursive decode of `T` (which is
handed the original optional slice, exactly as in the source). -/
def maybeEmptyDeserialize {α : Type} (name : String)
    (inner : ColumnType → Option (List Nat) → DeserResult α)
    (typ : ColumnType) (v : Option (List Nat)) : DeserResult (MaybeEmpty α) := do
  let val ← ensure_not_null_slice name typ v
  if val.isEmpty then
    pure .Empty
  else
    (inner typ v).map .Value

/-! ### The dynamic value `CqlValue` -/

/-- The dynamic value representation (`CqlValue` in
`frame/response/result.rs`, outside the source slice), restricted to the
primitive branches the spec details. -/
inductive CqlValue where
  | Ascii (bs : List Nat)
  | Boolean (b : Bool)
  | Blob (bs : List Nat)
  | Counter (c : Counter)
  | Date (d : CqlDate)
  | Decimal (d : CqlDecimal)
  | Double (bits : Nat)
  | Duration (d : CqlDuration)
  | Float (bits : Nat)
  | Int (i : Int)
  | BigInt (i : Int)
  | Text (bs : List Nat)
  | Timestamp (t : CqlTimestamp)
  | SmallInt (i : Int)
  | TinyInt (i : Int)
  | Time (t : CqlTime)
  | Varint (v : CqlVarint)

/-- Modelled from the spec: `deser_cql_value`
(`frame/response/result.rs`, outside the source slice) "decodes by consulting
the Column Type Catalog to pick the matching built-in branch at decode time".
Each primitive branch reuses the corresponding built-in decode; the
parametrized composite branches are not detailed by the spec and are modelled
as parse failures (`none`). -/
def deser_cql_value (typ : ColumnType) (bs : List Nat) : Option CqlValue :=
  match typ with
  | .Ascii => (deserialize_str typ (some bs)).toOption.map .Ascii
  | .Boolean => (deserialize_bool typ (some bs)).toOption.map .Boolean
  | .Blob => (deserialize_bytesSlice typ (some bs)).toOption.map .Blob
  | .Counter => (deserialize_Counter typ (some bs)).toOption.map .Counter
  | .Date => (deserialize_CqlDate typ (some bs)).toOption.map .Date
  | .Decimal => (deserialize_CqlDecimal typ (some bs)).toOption.map .Decimal
  | .Double => (deserialize_f64 typ (some bs)).toOption.map .Double
  | .Duration => (deserialize_CqlDuration typ (some bs)).toOption.map .Duration
  | .Float => (deserialize_f32 typ (some bs)).toOption.map .Float
  | .Int => (deserialize_i32 typ (some bs)).toOption.map .Int
  | .BigInt => (deserialize_i64 typ (some bs)).toOption.map .BigInt
  | .Text => (deserialize_str typ (some bs)).toOption.map .Text
  | .Timestamp => (deserialize_CqlTimestamp typ (some bs)).toOption.map .Timestamp
  | .SmallInt => (deserialize_i16 typ (some bs)).toOption.map .SmallInt
  | .TinyInt => (deserialize_i8 typ (some bs)).toOption.map .TinyInt
  | .Time => (deserialize_CqlTime typ (some bs)).toOption.map .Time
  | .Varint => (deserialize_CqlVarint typ (some bs)).toOption.map .Varint
  | _ => none

/-- `type_check` for `CqlValue`: accepts all possible CQL types. -/
def typeCheck_CqlValue (_typ : ColumnType) : TypeCheckResult :=
  .ok ()

/-- `deserialize` for `CqlValue`: non-null check, then `deser_cql_value`,
mapping its failure to a `GenericParseError`. -/
def deserialize_CqlValue (typ : ColumnType) (v : Option (List Nat)) : DeserResult CqlValue := do
  let val ← ensure_not_null_slice "CqlValue" typ v
  match deser_cql_value typ val with
  | some cql => pure cql
  | none => throw ⟨"CqlValue", typ, .GenericParseError⟩

/-! ### The sanctioned decode pipeline -/

/-- The caller contract of `DeserializeValue` (and the `deserialize` test
helper in `value.rs`): `type_check` once against the column type, propagating
its failure, and only then `deserialize`. -/
def typecheck_then_deserialize {α : Type} (tc : ColumnType → TypeCheckResult)
    (des : ColumnType → Option (List Nat) → DeserResult α)
    (typ : ColumnType) (v : Option (List Nat)) :
    Except (BuiltinTypeCheckError ⊕ BuiltinDeserializationError) α :=
  match tc typ with
  | .error e => .error (.inl e)
  | .ok () =>
    match des typ v with
    | .error e => .error (.inr e)
    | .ok a => .ok a

/-! ## Helper lemmas: behaviour of the decoders on a present slice -/

/-- `i8` decode on a present slice: exact length 1 or `ByteLengthMismatch`. -/
lemma deserialize_i8_some (typ : ColumnType) (s : List Nat) :
    deserialize_i8 typ (some s) =
      if s.length = 1 then .ok (fromBeBytesSigned 1 s)
      else .error ⟨"i8", typ, .ByteLengthMismatch 1 s.length⟩ := by
  by_cases h : s.length = 1 <;>
    simp [deserialize_i8, ensure_not_null_slice, ensure_exact_length, h,
      bind, Except.bind, pure, Except.pure]

/-- `i16` decode on a present slice: exact length 2 or `ByteLengthMismatch`. -/
lemma deserialize_i16_some (typ : ColumnType) (s : List Nat) :
    deserialize_i16 typ (some s) =
      if s.length = 2 then .ok (fromBeBytesSigned 2 s)
      else .error ⟨"i16", typ, .ByteLengthMismatch 2 s.length⟩ := by
  by_cases h : s.length = 2 <;>
    simp [deserialize_i16, ensure_not_null_slice, ensure_exact_length, h,
      bind, Except.bind, pure, Except.pure]

/-- `i32` decode on a present slice: exact length 4 or `ByteLengthMismatch`. -/
lemma deserialize_i32_some (typ : ColumnType) (s : List Nat) :
    deserialize_i32 typ (some s) =
      if s.length = 4 then .ok (fromBeBytesSigned 4 s)
      else .error ⟨"i32", typ, .ByteLengthMismatch 4 s.length⟩ := by
  by_cases h : s.length = 4 <;>
    simp [deserialize_i32, ensure_not_null_slice, ensure_exact_length, h,
      bind, Except.bind, pure, Except.pure]

/-- `i64` decode on a present slice: exact length 8 or `ByteLengthMismatch`. -/
lemma deserialize_i64_some (typ : ColumnType) (s : List Nat) :
    deserialize_i64 typ (some s) =
      if s.length = 8 then .ok (fromBeBytesSigned 8 s)
      else .error ⟨"i64", typ, .ByteLengthMismatch 8 s.length⟩ := by
  by_cases h : s.length = 8 <;>
    simp [deserialize_i64, ensure_not_null_slice, ensure_exact_length, h,
      bind, Except.bind, pure, Except.pure]

/-- `f32` decode on a present slice: exact length 4, big-endian bit pattern. -/
lemma deserialize_f32_some (typ : ColumnType) (s : List Nat) :
    deserialize_f32 typ (some s) =
      if s.length = 4 then .ok (beNat s)
      else .error ⟨"f32", typ, .ByteLengthMismatch 4 s.length⟩ := by
  by_cases h : s.length = 4 <;>
    simp [deserialize_f32, ensure_not_null_slice, ensure_exact_length, h,
      bind, Except.bind, pure, Except.pure]

/-- `f64` decode on a present slice: exact length 8, big-endian bit pattern. -/
lemma deserialize_f64_some (typ : ColumnType) (s : List Nat) :
    deserialize_f64 typ (some s) =
      if s.length = 8 then .ok (beNat s)
      else .error ⟨"f64", typ, .ByteLengthMismatch 8 s.length⟩ := by
  by_cases h : s.length = 8 <;>
    simp [deserialize_f64, ensure_not_null_slice, ensure_exact_length, h,
      bind, Except.bind, pure, Except.pure]

/-- `bool` decode on a present slice: exact length 1, `arr[0] != 0x00`. -/
lemma deserialize_bool_some (typ : ColumnType) (s : List Nat) :
    deserialize_bool typ (some s) =
      if s.length = 1 then .ok (s.headD 0 % 256 != 0)
      else .error ⟨"bool", typ, .ByteLengthMismatch 1 s.length⟩ := by
  by_cases h : s.length = 1 <;>
    simp [deserialize_bool, ensure_not_null_slice, ensure_exact_length, h,
      bind, Except.bind, pure, Except.pure]

/-- `Counter` decode on a present slice: exact length 8, wrapped `i64`. -/
lemma deserialize_Counter_some (typ : ColumnType) (s : List Nat) :
    deserialize_Counter typ (some s) =
      if s.length = 8 then .ok ⟨fromBeBytesSigned 8 s⟩
      else .error ⟨"Counter", typ, .ByteLengthMismatch 8 s.length⟩ := by
  by_cases h : s.length = 8 <;>
    simp [deserialize_Counter, ensure_not_null_slice, ensure_exact_length, h,
      bind, Except.bind, pure, Except.pure]

/-- `CqlTime` decode on a present slice: exact length 8, then the signed
big-endian value restricted to `0..=86399999999999`. -/
lemma deserialize_CqlTime_some (typ : ColumnType) (s : List Nat) :
    deserialize_CqlTime typ (some s) =
      if s.length = 8 then
        (if 0 ≤ fromBeBytesSigned 8 s ∧ fromBeBytesSigned 8 s ≤ 86399999999999 then
          .ok ⟨fromBeBytesSigned 8 s⟩
        else .error ⟨"CqlTime", typ, .ValueOverflow⟩)
      else .error ⟨"CqlTime", typ, .ByteLengthMismatch 8 s.length⟩ := by
  by_cases h : s.length = 8 <;>
    by_cases h2 : 0 ≤ fromBeBytesSigned 8 s ∧ fromBeBytesSigned 8 s ≤ 86399999999999 <;>
    simp [deserialize_CqlTime, get_nanos_from_time_column, ensure_not_null_slice,
      ensure_exact_length, h, h2, bind, Except.bind, pure, Except.pure, throw, throwThe,
      MonadExceptOf.throw]

/-- `CqlDate` decode on a present slice: exact length 4, raw unsigned
big-endian day count. -/
lemma deserialize_CqlDate_some (typ : ColumnType) (s : List Nat) :
    deserialize_CqlDate typ (some s) =
      if s.length = 4 then .ok ⟨beNat s⟩
      else .error ⟨"CqlDate", typ, .ByteLengthMismatch 4 s.length⟩ := by
  by_cases h : s.length = 4 <;>
    simp [deserialize_CqlDate, ensure_not_null_slice, ensure_exact_length, h,
      bind, Except.bind, pure, Except.pure]

/-- Days-since-epoch extraction on a present slice: exact length 4, stored
unsigned value minus `2^31`. -/
lemma get_days_since_epoch_some (name : String) (typ : ColumnType) (s : List Nat) :
    get_days_since_epoch_from_date_column name typ (some s) =
      if s.length = 4 then .ok ((beNat s : Int) - 2 ^ 31)
      else .error ⟨name, typ, .ByteLengthMismatch 4 s.length⟩ := by
  by_cases h : s.length = 4 <;>
    simp [get_days_since_epoch_from_date_column, ensure_not_null_slice,
      ensure_exact_length, h, bind, Except.bind, pure, Except.pure]

/-- Calendar-date decode on a present slice: the day offset is computed as
for `CqlDate` minus `2^31`, then range-checked against the calendar type's
representable range, failing with `ValueOverflow` outside it. -/
lemma deserialize_calendarDate_some (lo hi : Int) (name : String) (typ : ColumnType)
    (s : List Nat) :
    deserialize_calendarDate lo hi name typ (some s) =
      if s.length = 4 then
        (if lo ≤ (beNat s : Int) - 2 ^ 31 ∧ (beNat s : Int) - 2 ^ 31 ≤ hi then
          .ok ((beNat s : Int) - 2 ^ 31)
        else .error ⟨name, typ, .ValueOverflow⟩)
      else .error ⟨name, typ, .ByteLengthMismatch 4 s.length⟩ := by
  simp only [deserialize_calendarDate, bind, Except.bind, get_days_since_epoch_some,
    calendar_checked_add_days]
  by_cases h : s.length = 4 <;>
    by_cases h2 : lo ≤ (beNat s : Int) - 2 ^ 31 ∧ (beNat s : Int) - 2 ^ 31 ≤ hi <;>
    simp only [h, h2, if_true, if_false, reduceIte] <;> rfl

/-- `&str` decode on a present slice: ASCII check first (only for the
`Ascii` column type), then UTF-8 validation. -/
lemma deserialize_str_some (typ : ColumnType) (s : List Nat) :
    deserialize_str typ (some s) =
      if isAsciiType typ && !isAsciiBytes s then .error ⟨"&str", typ, .ExpectedAscii⟩
      else if validUtf8 s then .ok s
      else .error ⟨"&str", typ, .InvalidUtf8⟩ := by
  by_cases h : (isAsciiType typ && !isAsciiBytes s) = true <;>
    by_cases h2 : validUtf8 s = true <;>
    simp [deserialize_str, check_ascii, ensure_not_null_slice, h, h2,
      bind, Except.bind, pure, Except.pure, throw, throwThe, MonadExceptOf.throw]

/-- `String` decode on a present slice: same checks as `&str`. -/
lemma deserialize_String_some (typ : ColumnType) (s : List Nat) :
    deserialize_String typ (some s) =
      if isAsciiType typ && !isAsciiBytes s then .error ⟨"String", typ, .ExpectedAscii⟩
      else if validUtf8 s then .ok s
      else .error ⟨"String", typ, .InvalidUtf8⟩ := by
  by_cases h : (isAsciiType typ && !isAsciiBytes s) = true <;>
    by_cases h2 : validUtf8 s = true <;>
    simp [deserialize_String, check_ascii, ensure_not_null_slice, h, h2,
      bind, Except.bind, pure, Except.pure, throw, throwThe, MonadExceptOf.throw]

/-- `CqlDecimal` decode on a present slice: the scale is consumed from the
front by `read_int`, the remaining bytes form the signed magnitude. -/
lemma deserialize_CqlDecimal_some (typ : ColumnType) (s : List Nat) :
    deserialize_CqlDecimal typ (some s) =
      match read_int s with
      | some (scale, rest) => .ok ⟨fromSignedBytesBE rest, scale⟩
      | none => .error ⟨"CqlDecimal", typ, .GenericParseError⟩ := by
  cases h : read_int s <;>
    simp [deserialize_CqlDecimal, ensure_not_null_slice, h,
      bind, Except.bind, pure, Except.pure, throw, throwThe, MonadExceptOf.throw]

/-- The UTF-8 byte string of the text "Zażółć". -/
def zazolcBytes : List Nat := [90, 97, 197, 188, 195, 179, 197, 130, 196, 135]

/-! ## Claims -/

/-- **C1.** Every built-in target type fails with an `ExpectedNonNull` error
when fed null input (`deserialize(typ, None)`), with the single exception of
the optional wrapper `Option<T>`, which succeeds with `None`; moreover
`Option<T>::type_check` returns exactly what `T::type_check` returns, and on
a present slice `Option<T>::deserialize` is exactly `T::deserialize` of that
slice wrapped in `Some`. -/
theorem claim_C1 :
    (∀ typ, deserialize_bool typ none = .error ⟨"bool", typ, .ExpectedNonNull⟩)
    ∧ (∀ typ, deserialize_i8 typ none = .error ⟨"i8", typ, .ExpectedNonNull⟩)
    ∧ (∀ typ, deserialize_i16 typ none = .error ⟨"i16", typ, .ExpectedNonNull⟩)
    ∧ (∀ typ, deserialize_i32 typ none = .error ⟨"i32", typ, .ExpectedNonNull⟩)
    ∧ (∀ typ, deserialize_i64 typ none = .error ⟨"i64", typ, .ExpectedNonNull⟩)
    ∧ (∀ typ, deserialize_f32 typ none = .error ⟨"f32", typ, .ExpectedNonNull⟩)
    ∧ (∀ typ, deserialize_f64 typ none = .error ⟨"f64", typ, .ExpectedNonNull⟩)
    ∧ (∀ typ, deserialize_CqlVarint typ none = .error ⟨"CqlVarint", typ, .ExpectedNonNull⟩)
    ∧ (∀ typ, deserialize_CqlDecimal typ none = .error ⟨"CqlDecimal", typ, .ExpectedNonNull⟩)
    ∧ (∀ typ, deserialize_bytesSlice typ none = .error ⟨"&[u8]", typ, .ExpectedNonNull⟩)
    ∧ (∀ typ, deserialize_bytesVec typ none = .error ⟨"Vec<u8>", typ, .ExpectedNonNull⟩)
    ∧ (∀ typ, deserialize_Bytes typ none = .error ⟨"Bytes", typ, .ExpectedNonNull⟩)
    ∧ (∀ typ, deserialize_str typ none = .error ⟨"&str", typ, .ExpectedNonNull⟩)
    ∧ (∀ typ, deserialize_String typ none = .error ⟨"String", typ, .ExpectedNonNull⟩)
    ∧ (∀ typ, deserialize_Counter typ none = .error ⟨"Counter", typ, .ExpectedNonNull⟩)
    ∧ (∀ typ, deserialize_CqlDuration typ none = .error ⟨"CqlDuration", typ, .ExpectedNonNull⟩)
    ∧ (∀ typ, deserialize_CqlDate typ none = .error ⟨"CqlDate", typ, .ExpectedNonNull⟩)
    ∧ (∀ typ, deserialize_CqlTime typ none = .error ⟨"CqlTime", typ, .ExpectedNonNull⟩)
    ∧ (∀ typ, deserialize_CqlTimestamp typ none
        = .error ⟨"CqlTimestamp", typ, .ExpectedNonNull⟩)
    ∧ (∀ typ, deserialize_CqlValue typ none = .error ⟨"CqlValue", typ, .ExpectedNonNull⟩)
    ∧ (∀ (α : Type) (name : String) (inner : ColumnType → Option (List Nat) → DeserResult α)
        (typ : ColumnType),
        maybeEmptyDeserialize name inner typ none = .error ⟨name, typ, .ExpectedNonNull⟩)
    ∧ (∀ (α : Type) (inner : ColumnType → Option (List Nat) → DeserResult α)
        (typ : ColumnType), optionDeserialize inner typ none = .ok none)
    ∧ (∀ (tc : ColumnType → TypeCheckResult) (typ : ColumnType),
        optionTypeCheck tc typ = tc typ)
    ∧ (∀ (α : Type) (inner : ColumnType → Option (List Nat) → DeserResult α)
        (typ : ColumnType) (s : List Nat),
        optionDeserialize inner typ (some s) = (inner typ (some s)).map some) := by
  refine ⟨?_, ?_, ?_, ?_, ?_, ?_, ?_, ?_, ?_, ?_, ?_, ?_, ?_, ?_, ?_, ?_, ?_, ?_, ?_, ?_,
    ?_, ?_, ?_, ?_⟩ <;> intros <;> rfl

/-- **C2.** Wrapping an emptiable fixed-width type such as `i32` in
`MaybeEmpty` makes a present zero-length slice decode to `MaybeEmpty::Empty`
(never `Value`), while the unwrapped `i32` on the same zero-length present
slice fails with a `ByteLengthMismatch` error with `expected = 4` and
`got = 0`, not a default value. -/
theorem claim_C2 :
    (∀ (α : Type) (name : String) (inner : ColumnType → Option (List Nat) → DeserResult α)
        (typ : ColumnType),
        maybeEmptyDeserialize name inner typ (some []) = .ok .Empty)
    ∧ (∀ typ, maybeEmptyDeserialize "MaybeEmpty<i32>" deserialize_i32 typ (some [])
        = .ok .Empty)
    ∧ (∀ typ, deserialize_i32 typ (some [])
        = .error ⟨"i32", typ, .ByteLengthMismatch 4 0⟩) := by
  refine ⟨?_, ?_, ?_⟩ <;> intros <;> rfl

/-- **C3.** Every fixed-width numeric built-in (`i8`, `i16`, `i32`, `i64`,
`f32`, `f64`, `bool`, `Counter`) rejects any present slice whose length
differs from its exact width with a `ByteLengthMismatch` error carrying the
expected width and the actual length, and on a slice of exactly that width
returns the big-endian reinterpretation of the bytes (floats modelled by
their bit pattern): no padding and no truncation can occur. -/
theorem claim_C3 :
    (∀ typ s, deserialize_i8 typ (some s) =
      if s.length = 1 then .ok (fromBeBytesSigned 1 s)
      else .error ⟨"i8", typ, .ByteLengthMismatch 1 s.length⟩)
    ∧ (∀ typ s, deserialize_i16 typ (some s) =
      if s.length = 2 then .ok (fromBeBytesSigned 2 s)
      else .error ⟨"i16", typ, .ByteLengthMismatch 2 s.length⟩)
    ∧ (∀ typ s, deserialize_i32 typ (some s) =
      if s.length = 4 then .ok (fromBeBytesSigned 4 s)
      else .error ⟨"i32", typ, .ByteLengthMismatch 4 s.length⟩)
    ∧ (∀ typ s, deserialize_i64 typ (some s) =
      if s.length = 8 then .ok (fromBeBytesSigned 8 s)
      else .error ⟨"i64", typ, .ByteLengthMismatch 8 s.length⟩)
    ∧ (∀ typ s, deserialize_f32 typ (some s) =
      if s.length = 4 then .ok (beNat s)
      else .error ⟨"f32", typ, .ByteLengthMismatch 4 s.length⟩)
    ∧ (∀ typ s, deserialize_f64 typ (some s) =
      if s.length = 8 then .ok (beNat s)
      else .error ⟨"f64", typ, .ByteLengthMismatch 8 s.length⟩)
    ∧ (∀ typ s, deserialize_bool typ (some s) =
      if s.length = 1 then .ok (s.headD 0 % 256 != 0)
      else .error ⟨"bool", typ, .ByteLengthMismatch 1 s.length⟩)
    ∧ (∀ typ s, deserialize_Counter typ (some s) =
      if s.length = 8 then .ok ⟨fromBeBytesSigned 8 s⟩
      else .error ⟨"Counter", typ, .ByteLengthMismatch 8 s.length⟩)
    ∧ deserialize_i32 ColumnType.Int (some [1, 2, 3])
      = .error ⟨"i32", .Int, .ByteLengthMismatch 4 3⟩ :=
  ⟨deserialize_i8_some, deserialize_i16_some, deserialize_i32_some, deserialize_i64_some,
    deserialize_f32_some, deserialize_f64_some, deserialize_bool_some,
    deserialize_Counter_some, rfl⟩

/-- **C4 (counterexample).** The claim states that deserializing a 4-byte
slice as `i32` against a column of declared type `Date` does not succeed; on
the code, the raw `deserialize` never re-validates type compatibility (it is
allowed to assume `type_check` passed), so it does succeed. -/
theorem claim_C4_counterexample :
    deserialize_i32 ColumnType.Date (some [0, 0, 0, 1]) = .ok 1 :=
  rfl

/-- **C4 (amended).** When the caller performs the contractually required
`type_check` before `deserialize` (the pipeline the driver and the module's
own test helper use), a target whose `type_check` fails against a column type
never yields a value — the pipeline fails with the type-check error before
any byte is decoded; so the type-checked decode of a 4-byte slice as `i32`
against a `Date` column fails, even though both widths are 4 bytes. -/
theorem claim_C4 {α : Type} (tc : ColumnType → TypeCheckResult)
    (des : ColumnType → Option (List Nat) → DeserResult α)
    (typ : ColumnType) (v : Option (List Nat)) (e : BuiltinTypeCheckError)
    (h : tc typ = .error e) :
    typecheck_then_deserialize tc des typ v = .error (.inl e) := by
  unfold typecheck_then_deserialize
  rw [h]

/-- **C4 (witness).** `i32` against a `Date` column: `type_check` fails with
a mismatched-type error, and the type-checked pipeline on a 4-byte slice
fails with exactly that error. -/
theorem claim_C4_witness :
    typeCheck_i32 ColumnType.Date = .error ⟨"i32", .Date, .MismatchedType [.Int]⟩
    ∧ typecheck_then_deserialize typeCheck_i32 deserialize_i32 ColumnType.Date
        (some [0, 0, 0, 1])
      = .error (.inl ⟨"i32", .Date, .MismatchedType [.Int]⟩) :=
  ⟨rfl, claim_C4 typeCheck_i32 deserialize_i32 ColumnType.Date (some [0, 0, 0, 1])
    ⟨"i32", .Date, .MismatchedType [.Int]⟩ rfl⟩

/-- **C5.** `CqlDecimal` deserialization first consumes a leading
variable-length signed integer from the present slice as the scale
(`types::read_int`), then takes all remaining bytes as the big-endian
two's-complement magnitude; `CqlVarint` deserialization consumes all provided
bytes of the present slice as the big-endian two's-complement value, with no
length restriction (it succeeds for every present slice). -/
theorem claim_C5 :
    (∀ typ s, deserialize_CqlDecimal typ (some s) =
      match read_int s with
      | some (scale, rest) => .ok ⟨fromSignedBytesBE rest, scale⟩
      | none => .error ⟨"CqlDecimal", typ, .GenericParseError⟩)
    ∧ (∀ typ s, deserialize_CqlVarint typ (some s) = .ok ⟨fromSignedBytesBE s⟩)
    ∧ deserialize_CqlDecimal ColumnType.Decimal (some [4, 1, 2]) = .ok ⟨258, 2⟩
    ∧ deserialize_CqlVarint ColumnType.Varint (some [255]) = .ok ⟨-1⟩
    ∧ deserialize_CqlVarint ColumnType.Varint (some []) = .ok ⟨0⟩ :=
  ⟨deserialize_CqlDecimal_some, fun _ _ => rfl, rfl, rfl, rfl⟩

/-- **C6.** `CqlTime` deserialization reads exactly 8 bytes as a signed
big-endian nanosecond count and succeeds exactly when that count lies in
`[0, 86_399_999_999_999]`: the upper bound itself decodes successfully,
`86_400_000_000_000` and every negative value fail with `ValueOverflow`, and
any present slice of length other than 8 fails with `ByteLengthMismatch`. -/
theorem claim_C6 :
    (∀ typ s, deserialize_CqlTime typ (some s) =
      if s.length = 8 then
        (if 0 ≤ fromBeBytesSigned 8 s ∧ fromBeBytesSigned 8 s ≤ 86399999999999 then
          .ok ⟨fromBeBytesSigned 8 s⟩
        else .error ⟨"CqlTime", typ, .ValueOverflow⟩)
      else .error ⟨"CqlTime", typ, .ByteLengthMismatch 8 s.length⟩)
    ∧ deserialize_CqlTime ColumnType.Time (some (natToBeBytes 8 86399999999999))
      = .ok ⟨86399999999999⟩
    ∧ deserialize_CqlTime ColumnType.Time (some (natToBeBytes 8 86400000000000))
      = .error ⟨"CqlTime", .Time, .ValueOverflow⟩
    ∧ deserialize_CqlTime ColumnType.Time (some [255, 255, 255, 255, 255, 255, 255, 255])
      = .error ⟨"CqlTime", .Time, .ValueOverflow⟩ :=
  ⟨deserialize_CqlTime_some, rfl, rfl, rfl⟩

/-- **C7.** Date deserialization reads exactly 4 bytes as an unsigned
big-endian day count whose zero point is offset by `2^31` from the epoch:
`CqlDate` stores the raw unsigned count, the signed days-since-epoch equals
the stored value minus `2^31` (so the raw bytes `0x80000000` map to epoch day
0), and the calendar conversions fail with a dedicated `ValueOverflow` error
when the day offset leaves the calendar type's representable range. -/
theorem claim_C7 :
    (∀ typ s, deserialize_CqlDate typ (some s) =
      if s.length = 4 then .ok ⟨beNat s⟩
      else .error ⟨"CqlDate", typ, .ByteLengthMismatch 4 s.length⟩)
    ∧ (∀ name typ s, get_days_since_epoch_from_date_column name typ (some s) =
      if s.length = 4 then .ok ((beNat s : Int) - 2 ^ 31)
      else .error ⟨name, typ, .ByteLengthMismatch 4 s.length⟩)
    ∧ get_days_since_epoch_from_date_column "chrono::NaiveDate" ColumnType.Date
        (some [128, 0, 0, 0]) = .ok 0
    ∧ deserialize_CqlDate ColumnType.Date (some [128, 0, 0, 0]) = .ok ⟨2 ^ 31⟩
    ∧ (∀ lo hi name typ s, deserialize_calendarDate lo hi name typ (some s) =
      if s.length = 4 then
        (if lo ≤ (beNat s : Int) - 2 ^ 31 ∧ (beNat s : Int) - 2 ^ 31 ≤ hi then
          .ok ((beNat s : Int) - 2 ^ 31)
        else .error ⟨name, typ, .ValueOverflow⟩)
      else .error ⟨name, typ, .ByteLengthMismatch 4 s.length⟩) :=
  ⟨deserialize_CqlDate_some, get_days_since_epoch_some, rfl, rfl,
    deserialize_calendarDate_some⟩

/-- **C8.** String targets (`&str` and `String`) checked against an
`Ascii`-tagged column fail with `ExpectedAscii` whenever any byte is outside
the 7-bit range; against a `Text`-tagged column no ASCII check happens; in
both cases malformed UTF-8 fails with `InvalidUtf8`. Concretely, the UTF-8
bytes of "Zażółć" fail against `Ascii` and succeed against `Text` for both
targets. -/
theorem claim_C8 :
    (∀ typ s, deserialize_str typ (some s) =
      if isAsciiType typ && !isAsciiBytes s then .error ⟨"&str", typ, .ExpectedAscii⟩
      else if validUtf8 s then .ok s
      else .error ⟨"&str", typ, .InvalidUtf8⟩)
    ∧ (∀ typ s, deserialize_String typ (some s) =
      if isAsciiType typ && !isAsciiBytes s then .error ⟨"String", typ, .ExpectedAscii⟩
      else if validUtf8 s then .ok s
      else .error ⟨"String", typ, .InvalidUtf8⟩)
    ∧ isAsciiType ColumnType.Text = false
    ∧ deserialize_str ColumnType.Ascii (some zazolcBytes)
      = .error ⟨"&str", .Ascii, .ExpectedAscii⟩
    ∧ deserialize_String ColumnType.Ascii (some zazolcBytes)
      = .error ⟨"String", .Ascii, .ExpectedAscii⟩
    ∧ deserialize_str ColumnType.Text (some zazolcBytes) = .ok zazolcBytes
    ∧ deserialize_String ColumnType.Text (some zazolcBytes) = .ok zazolcBytes
    ∧ deserialize_str ColumnType.Text (some [197]) = .error ⟨"&str", .Text, .InvalidUtf8⟩ :=
  ⟨deserialize_str_some, deserialize_String_some, rfl, rfl, rfl, rfl, rfl, rfl⟩

/-- **C9.** `i64::type_check` succeeds for exactly the two column types
`BigInt` and `Counter` and fails with a `MismatchedType` error for every
other column type — so a `Counter` column deserializes directly into a plain
`i64` through the type-checked pipeline — while the other fixed-width integer
targets `i8`, `i16`, `i32` each type-check against exactly one column type. -/
theorem claim_C9 :
    (∀ typ, typeCheck_i64 typ = .ok () ↔ (typ = .BigInt ∨ typ = .Counter))
    ∧ (∀ typ, typeCheck_i64 typ = .ok ()
        ∨ typeCheck_i64 typ = .error ⟨"i64", typ, .MismatchedType [.BigInt, .Counter]⟩)
    ∧ (∀ typ, typeCheck_i8 typ = .ok () ↔ typ = .TinyInt)
    ∧ (∀ typ, typeCheck_i16 typ = .ok () ↔ typ = .SmallInt)
    ∧ (∀ typ, typeCheck_i32 typ = .ok () ↔ typ = .Int)
    ∧ typecheck_then_deserialize typeCheck_i64 deserialize_i64 ColumnType.Counter
        (some (natToBeBytes 8 42)) = .ok 42 := by
  refine ⟨?_, ?_, ?_, ?_, ?_, rfl⟩ <;> intro typ <;>
    cases typ <;> simp [typeCheck_i64, typeCheck_i8, typeCheck_i16, typeCheck_i32]

/-- **C10.** `bool` deserialization of a present 1-byte slice returns `true`
for every byte value other than `0x00` — not only `0x01` — and `false`
exactly when the byte is `0x00`; any present slice of length other than 1
fails with a `ByteLengthMismatch` error. -/
theorem claim_C10 :
    (∀ typ s, deserialize_bool typ (some s) =
      if s.length = 1 then .ok (s.headD 0 % 256 != 0)
      else .error ⟨"bool", typ, .ByteLengthMismatch 1 s.length⟩)
    ∧ (∀ typ b, deserialize_bool typ (some [b]) = .ok (b % 256 != 0))
    ∧ deserialize_bool ColumnType.Boolean (some [2]) = .ok true
    ∧ deserialize_bool ColumnType.Boolean (some [255]) = .ok true
    ∧ deserialize_bool ColumnType.Boolean (some [1]) = .ok true
    ∧ deserialize_bool ColumnType.Boolean (some [0]) = .ok false
    ∧ deserialize_bool ColumnType.Boolean (some [])
      = .error ⟨"bool", .Boolean, .ByteLengthMismatch 1 0⟩
    ∧ deserialize_bool ColumnType.Boolean (some [1, 0])
      = .error ⟨"bool", .Boolean, .ByteLengthMismatch 1 2⟩ :=
  ⟨deserialize_bool_some, fun _ _ => rfl, rfl, rfl, rfl, rfl, rfl, rfl⟩

end ScyllaCql
